import Mathlib

/-
Verification of the Danut_Evacuator distance-consistency checker.

The repository holds two near-identical Python scripts:
  Resources/Distances/Test.py        (single-subject audit)
  Resources/Distances/TestManual.py  (same, plus a large-discrepancy list)

This file embeds both scripts shallowly:
  * JSON records become Lean structures with `Option` fields, since the
    scripts access dictionary keys either via `.get` (missing tolerated)
    or via `d[k]` (missing raises KeyError);
  * the filesystem becomes a function `String → Option File`, where a
    present file is either unparsable JSON or a parsed record;
  * Python floats become `Rat` (the scripts only subtract, take absolute
    values and compare);
  * the Unicode ASCII-folding performed by
    `unicodedata.normalize(NFKD, s).encode(ASCII, ignore)` is an external
    library call and is modelled as an explicit parameter
    `fold : String → String` of the embedding;
  * Python `str.replace` on single-character patterns and `str.lower`
    are modelled character by character on `String.data`.
-/

namespace DistCheck

/-- A JSON object appearing in a `destinations` list.  The scripts read
the keys `name` and `distance_km`; a missing key raises `KeyError`,
which the embedding models with `Option`. -/
structure JsonEntry where
  name : Option String
  distance_km : Option Rat
deriving DecidableEq, Repr

/-- A parsed location JSON document as the scripts see it: both fields
are read with `.get`, so either may be absent. -/
structure RawRecord where
  origin : Option String
  destinations : Option (List JsonEntry)
deriving DecidableEq, Repr

/-- A file present on disk: either unparsable JSON (raising
`json.JSONDecodeError` on load) or a parsed record. -/
inductive File
  | invalid
  | record (r : RawRecord)
deriving DecidableEq, Repr

/-- The directory the scripts run in: maps a filename to its content,
`none` when the file does not exist (`FileNotFoundError` on open,
`os.path.exists` false). -/
def FS : Type := String → Option File

/-- `os.path.exists` over the modelled directory. -/
def FS.pathExists (fs : FS) (f : String) : Bool := (fs f).isSome

/-- Python `s.replace(c, r)` for a single-character pattern `c`
(the scripts only replace single characters: space, parentheses). -/
def pyReplaceChar (s : String) (c : Char) (r : List Char) : String :=
  ⟨s.data.foldr (fun a acc => if a = c then r ++ acc else a :: acc) []⟩

/-- Python `s.lower()` (ASCII-adequate, matching the filenames used). -/
def pyLower (s : String) : String := ⟨s.data.map Char.toLower⟩

/-- `normalize_name_to_filename` from Test.py lines 10-34 (TestManual.py
lines 9-33 is identical).  `fold` models the `unicodedata` ASCII-folding
call; `pathExists` models `os.path.exists`. -/
def normalize_name_to_filename (fold : String → String)
    (pathExists : String → Bool) (location_name : String) : String :=
  let normalized := fold location_name
  let sanitized :=
    pyReplaceChar (pyReplaceChar (pyReplaceChar normalized ' ' ['-']) '(' []) ')' []
  let potential_filenames :=
    [sanitized ++ ".json",
     pyLower sanitized ++ ".json",
     pyReplaceChar location_name ' ' ['-'] ++ ".json"]
  match potential_filenames.find? pathExists with
  | some filename => filename
  | none => pyReplaceChar location_name ' ' ['-'] ++ ".json"

/-- The errors accumulated in the `errors` list, tagged as the scripts
tag their messages: `[Missing Return]`, `[File Not Found]`,
`[File Error]` (the latter covering both `json.JSONDecodeError` and a
caught `KeyError` in a destination file). -/
inductive RunError
  | missingReturn (origin : String) (filename : String)
  | fileNotFound (filename : String) (destName : String)
  | fileError (filename : String)
deriving DecidableEq, Repr

/-- True exactly on the `[File Error]` tag (the classification the spec
calls RecordInvalid). -/
def RunError.isFileError : RunError → Bool
  | .fileError _ => true
  | _ => false

/-- A mismatch dictionary as appended in Test.py lines 92-98. -/
structure Mismatch where
  origin : String
  destination : String
  forward_km : Rat
  backward_km : Rat
  discrepancy : Rat
deriving DecidableEq, Repr

/-- The reasons check_distances prints a FATAL ERROR and returns. -/
inductive FatalKind
  | fileNotFound
  | jsonDecodeError
  | missingKey
deriving DecidableEq, Repr

/-- The inner loop of Test.py lines 80-84: scan the destination file's
`destinations` for the first entry whose `name` equals the origin
(exact string comparison).  Reading a missing `name` key, or a missing
`distance_km` on the matching entry, raises `KeyError`
(modelled `.error ()`); it is caught by the surrounding handler. -/
def findReciprocal (main_origin : String) :
    List JsonEntry → Except Unit (Option Rat)
  | [] => .ok none
  | e :: rest =>
    match e.name with
    | none => .error ()
    | some n =>
      if n = main_origin then
        match e.distance_km with
        | none => .error ()
        | some d => .ok (some d)
      else findReciprocal main_origin rest

end DistCheck

namespace Test

open DistCheck

/-- The state Test.py's check_distances has accumulated when the loop
finishes: `checked_count`, `mismatches` (in discovery order; the
reporting step sorts them), `errors`. -/
structure RunResult where
  checked_count : Nat
  mismatches : List Mismatch
  errors : List RunError
deriving DecidableEq, Repr

/-- How a run of Test.py's check_distances ends: a FATAL ERROR message
followed by `return`, an uncaught `KeyError` escaping the script
(lines 70-71 are outside the try block), or normal completion. -/
inductive Outcome
  | fatal (k : FatalKind)
  | keyError
  | done (r : RunResult)
deriving DecidableEq, Repr

/-- What one destination entry of the primary record does to the run. -/
inductive StepResult
  | keyErr
  | consistent
  | mismatch (m : Mismatch)
  | err (e : RunError)
deriving DecidableEq, Repr

/-- The body of the loop of Test.py lines 69-105 for one `dest_entry`.
`dest_entry["name"]` and `dest_entry["distance_km"]` are read before the
try block, so a missing key is an uncaught `KeyError`; everything after
the open is inside the try, so `FileNotFoundError`, `JSONDecodeError`
and `KeyError` raised there append to `errors` instead. -/
def processEntry (fold : String → String) (fs : FS) (main_origin : String)
    (dest_entry : JsonEntry) : StepResult :=
  match dest_entry.name with
  | none => .keyErr
  | some destination_name =>
    match dest_entry.distance_km with
    | none => .keyErr
    | some distance_forward =>
      let destination_filename :=
        normalize_name_to_filename fold fs.pathExists destination_name
      match fs destination_filename with
      | none => .err (.fileNotFound destination_filename destination_name)
      | some .invalid => .err (.fileError destination_filename)
      | some (.record dest_data) =>
        match findReciprocal main_origin (dest_data.destinations.getD []) with
        | .error _ => .err (.fileError destination_filename)
        | .ok none => .err (.missingReturn main_origin destination_filename)
        | .ok (some distance_backward) =>
          let discrepancy := |distance_forward - distance_backward|
          if discrepancy > 0.01 then
            .mismatch ⟨main_origin, destination_name, distance_forward,
                       distance_backward, discrepancy⟩
          else
            .consistent

/-- The loop of Test.py lines 69-105, threading `checked_count`,
`mismatches` and `errors`.  An uncaught `KeyError` aborts the whole
run; every caught failure appends one error row and continues. -/
def runLoop (fold : String → String) (fs : FS) (main_origin : String) :
    List JsonEntry → Nat → List Mismatch → List RunError → Outcome
  | [], checked_count, mismatches, errors =>
    .done ⟨checked_count, mismatches, errors⟩
  | e :: rest, checked_count, mismatches, errors =>
    match processEntry fold fs main_origin e with
    | .keyErr => .keyError
    | .consistent => runLoop fold fs main_origin rest (checked_count + 1) mismatches errors
    | .mismatch m => runLoop fold fs main_origin rest checked_count (mismatches ++ [m]) errors
    | .err er => runLoop fold fs main_origin rest checked_count mismatches (errors ++ [er])

/-- check_distances from Test.py lines 37-130.  `primary` stands for the
configured PRIMARY_FILE_TO_CHECK.  Loading failures and the
missing/falsy `origin`/`destinations` check (line 62: Python `not`
makes `None`, the empty string and the empty list all fatal) print a
FATAL ERROR and return. -/
def check_distances (fold : String → String) (fs : FS) (primary : String) : Outcome :=
  match fs primary with
  | none => .fatal .fileNotFound
  | some .invalid => .fatal .jsonDecodeError
  | some (.record main_data) =>
    let destinations := main_data.destinations.getD []
    match main_data.origin with
    | none => .fatal .missingKey
    | some main_origin =>
      if main_origin = "" ∨ destinations = [] then .fatal .missingKey
      else runLoop fold fs main_origin destinations 0 [] []

/-- Python's `list.sort(key=..., reverse=True)` is a stable descending
sort; insertion keeping an incoming element ahead of equal keys models
it (stable sorts agree on their output). -/
def insertDesc (x : Mismatch) : List Mismatch → List Mismatch
  | [] => [x]
  | y :: ys =>
    if x.discrepancy ≥ y.discrepancy then x :: y :: ys
    else y :: insertDesc x ys

/-- Stable descending sort by `discrepancy`, modelling
`mismatches.sort(key=lambda x: x[discrepancy], reverse=True)`
at Test.py line 114. -/
def sortDesc : List Mismatch → List Mismatch
  | [] => []
  | x :: xs => insertDesc x (sortDesc xs)

/-- The mismatch list in the order the report prints it. -/
def reportedMismatches (r : RunResult) : List Mismatch := sortDesc r.mismatches

/-- Exit code of the Python process running Test.py.  The script never
calls `sys.exit`: a normal return, including after printing a FATAL
ERROR message, exits 0; only an uncaught exception (the `KeyError`
of lines 70-71) makes the interpreter exit nonzero (1). -/
def exitCode : Outcome → Nat
  | .keyError => 1
  | _ => 0

end Test

namespace TestManual

open DistCheck

/-- The threshold constant of TestManual.py line 6. -/
def DISCREPANCY_THRESHOLD_KM : Rat := 19.0

/-- TestManual.py's loop state additionally carries
`large_discrepancy_destinations` (line 45). -/
structure RunResult where
  checked_count : Nat
  mismatches : List Mismatch
  errors : List RunError
  large_discrepancy_destinations : List String
deriving DecidableEq, Repr

/-- How a run of TestManual.py's check_distances ends. -/
inductive Outcome
  | fatal (k : FatalKind)
  | keyError
  | done (r : RunResult)
deriving DecidableEq, Repr

/-- What one destination entry does to a TestManual.py run.  A mismatch
carries whether its discrepancy exceeded DISCREPANCY_THRESHOLD_KM
(TestManual.py line 103, strict `>`). -/
inductive StepResult
  | keyErr
  | consistent
  | mismatch (m : Mismatch) (large : Bool)
  | err (e : RunError)
deriving DecidableEq, Repr

/-- The body of the loop of TestManual.py lines 69-111 for one entry,
with `threshold` standing for the configured DISCREPANCY_THRESHOLD_KM. -/
def processEntry (threshold : Rat) (fold : String → String) (fs : FS)
    (main_origin : String) (dest_entry : JsonEntry) : StepResult :=
  match dest_entry.name with
  | none => .keyErr
  | some destination_name =>
    match dest_entry.distance_km with
    | none => .keyErr
    | some distance_forward =>
      let destination_filename :=
        normalize_name_to_filename fold fs.pathExists destination_name
      match fs destination_filename with
      | none => .err (.fileNotFound destination_filename destination_name)
      | some .invalid => .err (.fileError destination_filename)
      | some (.record dest_data) =>
        match findReciprocal main_origin (dest_data.destinations.getD []) with
        | .error _ => .err (.fileError destination_filename)
        | .ok none => .err (.missingReturn main_origin destination_filename)
        | .ok (some distance_backward) =>
          let discrepancy := |distance_forward - distance_backward|
          if discrepancy > 0.01 then
            .mismatch ⟨main_origin, destination_name, distance_forward,
                       distance_backward, discrepancy⟩
              (decide (discrepancy > threshold))
          else
            .consistent

/-- The loop of TestManual.py lines 69-111: a mismatch is always stored,
and its destination name is additionally appended to
`large_discrepancy_destinations` when the discrepancy strictly exceeds
the threshold. -/
def runLoop (threshold : Rat) (fold : String → String) (fs : FS)
    (main_origin : String) :
    List JsonEntry → Nat → List Mismatch → List RunError → List String → Outcome
  | [], checked_count, mismatches, errors, larges =>
    .done ⟨checked_count, mismatches, errors, larges⟩
  | e :: rest, checked_count, mismatches, errors, larges =>
    match processEntry threshold fold fs main_origin e with
    | .keyErr => .keyError
    | .consistent =>
      runLoop threshold fold fs main_origin rest (checked_count + 1) mismatches errors larges
    | .mismatch m large =>
      runLoop threshold fold fs main_origin rest checked_count (mismatches ++ [m]) errors
        (if large then larges ++ [m.destination] else larges)
    | .err er =>
      runLoop threshold fold fs main_origin rest checked_count mismatches (errors ++ [er]) larges

/-- check_distances from TestManual.py lines 36-148. -/
def check_distances (threshold : Rat) (fold : String → String) (fs : FS)
    (primary : String) : Outcome :=
  match fs primary with
  | none => .fatal .fileNotFound
  | some .invalid => .fatal .jsonDecodeError
  | some (.record main_data) =>
    let destinations := main_data.destinations.getD []
    match main_data.origin with
    | none => .fatal .missingKey
    | some main_origin =>
      if main_origin = "" ∨ destinations = [] then .fatal .missingKey
      else runLoop threshold fold fs main_origin destinations 0 [] [] []

end TestManual

namespace DistCheck

/-- A directory with one destination record whose return distance to
`P` differs from the forward distance by 0.005 km. -/
def fsNoise : FS := fun f =>
  if f = "B.json" then
    some (.record ⟨some "B", some [⟨some "P", some 10.005⟩]⟩)
  else none

/-- A directory whose only record lists a distance to `X` but none back
to `P`. -/
def fsNoReturn : FS := fun f =>
  if f = "B.json" then
    some (.record ⟨some "B", some [⟨some "X", some 5⟩]⟩)
  else none

/-- A directory whose destination record declares the return distance
10 km to `P`. -/
def fsReturn10 : FS := fun f =>
  if f = "B.json" then
    some (.record ⟨some "B", some [⟨some "P", some 10⟩]⟩)
  else none

/-- A primary record with two destinations `Z` and `A`, both of whose
records disagree with it by the same 10 km, `Z` listed first. -/
def fsTie : FS := fun f =>
  if f = "P.json" then
    some (.record ⟨some "P", some [⟨some "Z", some 10⟩, ⟨some "A", some 30⟩]⟩)
  else if f = "Z.json" then
    some (.record ⟨some "Z", some [⟨some "P", some 20⟩]⟩)
  else if f = "A.json" then
    some (.record ⟨some "A", some [⟨some "P", some 20⟩]⟩)
  else none

/-- A primary record whose single destination entry has no backing
file at all. -/
def fsLoneDest : FS := fun f =>
  if f = "P.json" then
    some (.record ⟨some "P", some [⟨some "B", some 1⟩]⟩)
  else none

/-- A primary record whose own destination entry carries neither a
`name` nor a `distance_km` key. -/
def fsBadEntry : FS := fun f =>
  if f = "P.json" then
    some (.record ⟨some "P", some [⟨none, none⟩]⟩)
  else none

/-- A primary with two destinations: `B.json` parses but has no
`origin` key (its reciprocal entry matches anyway), and `C.json`
parses but has no `destinations` key. -/
def fsShapes : FS := fun f =>
  if f = "P.json" then
    some (.record ⟨some "P", some [⟨some "B", some 10⟩, ⟨some "C", some 5⟩]⟩)
  else if f = "B.json" then
    some (.record ⟨none, some [⟨some "P", some 10⟩]⟩)
  else if f = "C.json" then
    some (.record ⟨some "C", none⟩)
  else none

/-- A destination record that exists but has no `destinations` key. -/
def fsNoDests : FS := fun f =>
  if f = "B.json" then some (.record ⟨some "B", none⟩) else none

/-- A primary record whose `origin` is the empty string. -/
def fsEmptyOrigin : FS := fun f =>
  if f = "P.json" then
    some (.record ⟨some "", some [⟨some "B", some 1⟩]⟩)
  else none

/-- A primary record whose destination entry is missing its `name`. -/
def fsNamelessDest : FS := fun f =>
  if f = "P.json" then
    some (.record ⟨some "P", some [⟨none, some 3⟩]⟩)
  else none

/-- Two locations that each declare a distance to the other: `A` says
10 km to `B`, `B` says 25 km back to `A`. -/
def fsPair : FS := fun f =>
  if f = "A.json" then
    some (.record ⟨some "A", some [⟨some "B", some 10⟩]⟩)
  else if f = "B.json" then
    some (.record ⟨some "B", some [⟨some "A", some 25⟩]⟩)
  else none

end DistCheck

namespace DistCheck

/-- Scanning a list in which every entry carries a name different from
the origin finds no reciprocal entry. -/
theorem findReciprocal_eq_ok_none {main_origin : String} {l : List JsonEntry}
    (h : ∀ en ∈ l, ∃ n, en.name = some n ∧ n ≠ main_origin) :
    findReciprocal main_origin l = .ok none := by
  induction l with
  | nil => rfl
  | cons e rest ih =>
    obtain ⟨n, hn, hne⟩ := h e (by simp)
    unfold findReciprocal
    rw [hn]
    dsimp only
    rw [if_neg hne]
    exact ih (fun en hen => h en (by simp [hen]))

end DistCheck

namespace Test

open DistCheck

/-- Evaluation of one loop body when the destination file resolves to a
parsed record and the reciprocal scan finds a distance `y`. -/
theorem processEntry_found {fold : String → String} {fs : FS}
    {main_origin : String} {e : JsonEntry} {dn : String} {x : Rat}
    {fn : String} {d : RawRecord} {y : Rat}
    (h1 : e.name = some dn) (h2 : e.distance_km = some x)
    (hfn : normalize_name_to_filename fold fs.pathExists dn = fn)
    (hfs : fs fn = some (.record d))
    (hrec : findReciprocal main_origin (d.destinations.getD []) = .ok (some y)) :
    processEntry fold fs main_origin e =
      if |x - y| > 0.01 then
        .mismatch ⟨main_origin, dn, x, y, |x - y|⟩
      else .consistent := by
  unfold processEntry
  rw [h1, h2]
  simp only [hfn, hfs, hrec]

/-- Evaluation of one loop body when the reciprocal scan comes back
empty. -/
theorem processEntry_missingReturn {fold : String → String} {fs : FS}
    {main_origin : String} {e : JsonEntry} {dn : String} {x : Rat}
    {fn : String} {d : RawRecord}
    (h1 : e.name = some dn) (h2 : e.distance_km = some x)
    (hfn : normalize_name_to_filename fold fs.pathExists dn = fn)
    (hfs : fs fn = some (.record d))
    (hrec : findReciprocal main_origin (d.destinations.getD []) = .ok none) :
    processEntry fold fs main_origin e = .err (.missingReturn main_origin fn) := by
  unfold processEntry
  rw [h1, h2]
  simp only [hfn, hfs, hrec]

/-- Evaluation of one loop body when the reciprocal scan raises a
`KeyError` (caught: it becomes a `[File Error]` row). -/
theorem processEntry_scanKeyError {fold : String → String} {fs : FS}
    {main_origin : String} {e : JsonEntry} {dn : String} {x : Rat}
    {fn : String} {d : RawRecord}
    (h1 : e.name = some dn) (h2 : e.distance_km = some x)
    (hfn : normalize_name_to_filename fold fs.pathExists dn = fn)
    (hfs : fs fn = some (.record d))
    (hrec : findReciprocal main_origin (d.destinations.getD []) = .error ()) :
    processEntry fold fs main_origin e = .err (.fileError fn) := by
  unfold processEntry
  rw [h1, h2]
  simp only [hfn, hfs, hrec]

end Test

namespace TestManual

open DistCheck

/-- Evaluation of one TestManual.py loop body when the destination file
resolves to a parsed record and the reciprocal scan finds `y`. -/
theorem processEntryManual_found {threshold : Rat} {fold : String → String} {fs : FS}
    {main_origin : String} {e : JsonEntry} {dn : String} {x : Rat}
    {fn : String} {d : RawRecord} {y : Rat}
    (h1 : e.name = some dn) (h2 : e.distance_km = some x)
    (hfn : normalize_name_to_filename fold fs.pathExists dn = fn)
    (hfs : fs fn = some (.record d))
    (hrec : findReciprocal main_origin (d.destinations.getD []) = .ok (some y)) :
    processEntry threshold fold fs main_origin e =
      if |x - y| > 0.01 then
        .mismatch ⟨main_origin, dn, x, y, |x - y|⟩ (decide (|x - y| > threshold))
      else .consistent := by
  unfold processEntry
  rw [h1, h2]
  simp only [hfn, hfs, hrec]

end TestManual

/-- C1: once the reciprocal entry is found, Test.py computes
`discrepancy = |distance_forward - distance_backward|`; when it is at
most 0.01 the entry only increments the consistent counter, and when it
exceeds 0.01 it appends one mismatch carrying origin, destination,
forward, backward and discrepancy. -/
theorem C1_within_tolerance_consistent {fold : String → String}
    {fs : DistCheck.FS} {main_origin : String} {e : DistCheck.JsonEntry}
    {dn : String} {x : Rat} {fn : String} {d : DistCheck.RawRecord} {y : Rat}
    (h1 : e.name = some dn) (h2 : e.distance_km = some x)
    (hfn : DistCheck.normalize_name_to_filename fold fs.pathExists dn = fn)
    (hfs : fs fn = some (.record d))
    (hrec : DistCheck.findReciprocal main_origin (d.destinations.getD []) = .ok (some y)) :
    (|x - y| ≤ 0.01 →
      Test.processEntry fold fs main_origin e = .consistent ∧
      ∀ rest cc ms errs,
        Test.runLoop fold fs main_origin (e :: rest) cc ms errs =
        Test.runLoop fold fs main_origin rest (cc + 1) ms errs) ∧
    (|x - y| > 0.01 →
      Test.processEntry fold fs main_origin e =
        .mismatch ⟨main_origin, dn, x, y, |x - y|⟩ ∧
      ∀ rest cc ms errs,
        Test.runLoop fold fs main_origin (e :: rest) cc ms errs =
        Test.runLoop fold fs main_origin rest cc
          (ms ++ [⟨main_origin, dn, x, y, |x - y|⟩]) errs) := by
  have hp := Test.processEntry_found h1 h2 hfn hfs hrec
  constructor
  · intro hle
    have hstep : Test.processEntry fold fs main_origin e = .consistent := by
      rw [hp, if_neg (not_lt.mpr hle)]
    exact ⟨hstep, fun rest cc ms errs => by simp [Test.runLoop, hstep]⟩
  · intro hgt
    have hstep : Test.processEntry fold fs main_origin e =
        .mismatch ⟨main_origin, dn, x, y, |x - y|⟩ := by
      rw [hp, if_pos hgt]
    exact ⟨hstep, fun rest cc ms errs => by simp [Test.runLoop, hstep]⟩

/-- C1 witness: a 0.005 km discrepancy (forward 10, backward 10.005)
is below the noise floor and counts as consistent. -/
theorem C1_within_tolerance_consistent_witness :
    |(10 : Rat) - 10.005| ≤ 0.01 ∧
    Test.processEntry id DistCheck.fsNoise "P" ⟨some "B", some 10⟩ = .consistent ∧
    Test.runLoop id DistCheck.fsNoise "P" [⟨some "B", some 10⟩] 0 [] [] =
      Test.runLoop id DistCheck.fsNoise "P" [] (0 + 1) [] [] := by
  have hle : |(10 : Rat) - 10.005| ≤ 0.01 := by norm_num [abs_le]
  have h := (@C1_within_tolerance_consistent id DistCheck.fsNoise
    "P" ⟨some "B", some 10⟩ "B" 10 "B.json"
    ⟨some "B", some [⟨some "P", some 10.005⟩]⟩
    10.005 rfl rfl rfl rfl rfl).1 hle
  exact ⟨hle, h.1, h.2 [] 0 [] []⟩

/-- C2: when the resolved destination record has no entry whose name
exactly equals the origin, the loop body yields one
`[Missing Return]` error row, no mismatch, and the run continues with
the remaining destination entries. -/
theorem C2_missing_reciprocal_single_error {fold : String → String}
    {fs : DistCheck.FS} {main_origin : String} {e : DistCheck.JsonEntry}
    {dn : String} {x : Rat} {fn : String} {d : DistCheck.RawRecord}
    (h1 : e.name = some dn) (h2 : e.distance_km = some x)
    (hfn : DistCheck.normalize_name_to_filename fold fs.pathExists dn = fn)
    (hfs : fs fn = some (.record d))
    (hno : ∀ en ∈ d.destinations.getD [], ∃ n, en.name = some n ∧ n ≠ main_origin) :
    Test.processEntry fold fs main_origin e =
      .err (.missingReturn main_origin fn) ∧
    ∀ rest cc ms errs,
      Test.runLoop fold fs main_origin (e :: rest) cc ms errs =
      Test.runLoop fold fs main_origin rest cc ms
        (errs ++ [.missingReturn main_origin fn]) := by
  have hstep := Test.processEntry_missingReturn h1 h2 hfn hfs
    (DistCheck.findReciprocal_eq_ok_none hno)
  exact ⟨hstep, fun rest cc ms errs => by simp [Test.runLoop, hstep]⟩

/-- C2 witness: `P → B` is declared, but B.json only points at `X`, so
the pair produces exactly one MissingReturn row and nothing else. -/
theorem C2_missing_reciprocal_single_error_witness :
    Test.processEntry id DistCheck.fsNoReturn "P" ⟨some "B", some 7⟩ =
      .err (.missingReturn "P" "B.json") ∧
    Test.runLoop id DistCheck.fsNoReturn "P" [⟨some "B", some 7⟩] 0 [] [] =
      Test.runLoop id DistCheck.fsNoReturn "P" [] 0 []
        [.missingReturn "P" "B.json"] := by
  have h := @C2_missing_reciprocal_single_error id
    DistCheck.fsNoReturn "P" ⟨some "B", some 7⟩
    "B" 7 "B.json"
    ⟨some "B", some [⟨some "X", some 5⟩]⟩ rfl rfl rfl rfl
    (by
      intro en hen
      simp only [Option.getD, List.mem_singleton] at hen
      subst hen
      exact ⟨"X", rfl, by decide⟩)
  exact ⟨h.1, by simpa using h.2 [] 0 [] []⟩

/-- C7: the filename lookup tries the ASCII-folded hyphenated key, then
its lower-cased form, then the raw hyphenated name, returning the first
that exists on disk, and falls back to the raw hyphenated variant when
none exists. -/
theorem C7_lookup_key_order (fold : String → String)
    (pathExists : String → Bool) (location_name : String) :
    DistCheck.normalize_name_to_filename fold pathExists location_name =
      (let sanitized := DistCheck.pyReplaceChar
        (DistCheck.pyReplaceChar
          (DistCheck.pyReplaceChar (fold location_name) ' ' ['-']) '(' []) ')' []
       let a := sanitized ++ ".json"
       let b := DistCheck.pyLower sanitized ++ ".json"
       let c := DistCheck.pyReplaceChar location_name ' ' ['-'] ++ ".json"
       if pathExists a then a else if pathExists b then b else c) := by
  unfold DistCheck.normalize_name_to_filename
  dsimp only
  cases hA : pathExists (DistCheck.pyReplaceChar
      (DistCheck.pyReplaceChar
        (DistCheck.pyReplaceChar (fold location_name) ' ' ['-']) '(' []) ')' [] ++ ".json") <;>
    cases hB : pathExists (DistCheck.pyLower (DistCheck.pyReplaceChar
      (DistCheck.pyReplaceChar
        (DistCheck.pyReplaceChar (fold location_name) ' ' ['-']) '(' []) ')' []) ++ ".json") <;>
    cases hC : pathExists (DistCheck.pyReplaceChar location_name ' ' ['-'] ++ ".json") <;>
    simp [List.find?, hA, hB, hC]

/-- C3: a mismatch whose discrepancy equals DISCREPANCY_THRESHOLD_KM is
stored as a mismatch but not added to the large-discrepancy destination
list; a discrepancy strictly above the threshold is added
(TestManual.py line 103 compares with strict `>`). -/
theorem C3_threshold_strict {threshold : Rat} {fold : String → String}
    {fs : DistCheck.FS} {main_origin : String} {e : DistCheck.JsonEntry}
    {dn : String} {x : Rat} {fn : String} {d : DistCheck.RawRecord} {y : Rat}
    (h1 : e.name = some dn) (h2 : e.distance_km = some x)
    (hfn : DistCheck.normalize_name_to_filename fold fs.pathExists dn = fn)
    (hfs : fs fn = some (.record d))
    (hrec : DistCheck.findReciprocal main_origin (d.destinations.getD []) = .ok (some y))
    (hmis : |x - y| > 0.01) :
    (|x - y| = threshold →
      TestManual.processEntry threshold fold fs main_origin e =
        .mismatch ⟨main_origin, dn, x, y, |x - y|⟩ false ∧
      ∀ rest cc ms errs larges,
        TestManual.runLoop threshold fold fs main_origin (e :: rest) cc ms errs larges =
        TestManual.runLoop threshold fold fs main_origin rest cc
          (ms ++ [⟨main_origin, dn, x, y, |x - y|⟩]) errs larges) ∧
    (|x - y| > threshold →
      TestManual.processEntry threshold fold fs main_origin e =
        .mismatch ⟨main_origin, dn, x, y, |x - y|⟩ true ∧
      ∀ rest cc ms errs larges,
        TestManual.runLoop threshold fold fs main_origin (e :: rest) cc ms errs larges =
        TestManual.runLoop threshold fold fs main_origin rest cc
          (ms ++ [⟨main_origin, dn, x, y, |x - y|⟩]) errs (larges ++ [dn])) := by
  have hp := @TestManual.processEntryManual_found threshold fold fs main_origin e dn x fn d y h1 h2 hfn hfs hrec
  constructor
  · intro heq
    have hstep : TestManual.processEntry threshold fold fs main_origin e =
        .mismatch ⟨main_origin, dn, x, y, |x - y|⟩ false := by
      rw [hp, if_pos hmis, decide_eq_false (by rw [heq]; exact lt_irrefl threshold)]
    exact ⟨hstep, fun rest cc ms errs larges => by simp [TestManual.runLoop, hstep]⟩
  · intro hgt
    have hstep : TestManual.processEntry threshold fold fs main_origin e =
        .mismatch ⟨main_origin, dn, x, y, |x - y|⟩ true := by
      rw [hp, if_pos hmis, decide_eq_true hgt]
    exact ⟨hstep, fun rest cc ms errs larges => by simp [TestManual.runLoop, hstep]⟩

/-- C3 witness: forward 29 vs backward 10 gives a discrepancy of
exactly 19.0 = DISCREPANCY_THRESHOLD_KM, which is reported as a
mismatch but kept out of the large-discrepancy list. -/
theorem C3_threshold_strict_witness :
    |(29 : Rat) - 10| = TestManual.DISCREPANCY_THRESHOLD_KM ∧
    TestManual.processEntry TestManual.DISCREPANCY_THRESHOLD_KM id
      DistCheck.fsReturn10 "P" ⟨some "B", some 29⟩ =
      .mismatch ⟨"P", "B", 29, 10, |(29 : Rat) - 10|⟩ false ∧
    TestManual.runLoop TestManual.DISCREPANCY_THRESHOLD_KM id
      DistCheck.fsReturn10 "P" [⟨some "B", some 29⟩] 0 [] [] [] =
    TestManual.runLoop TestManual.DISCREPANCY_THRESHOLD_KM id
      DistCheck.fsReturn10 "P" [] 0 ([] ++ [⟨"P", "B", 29, 10, |(29 : Rat) - 10|⟩]) [] [] := by
  have heq : |(29 : Rat) - 10| = TestManual.DISCREPANCY_THRESHOLD_KM := by
    norm_num [TestManual.DISCREPANCY_THRESHOLD_KM]
  have h := (@C3_threshold_strict TestManual.DISCREPANCY_THRESHOLD_KM
    id DistCheck.fsReturn10 "P"
    ⟨some "B", some 29⟩ "B" 29 "B.json"
    ⟨some "B", some [⟨some "P", some 10⟩]⟩ 10
    rfl rfl rfl rfl rfl (by norm_num)).1 heq
  exact ⟨heq, h.1, h.2 [] 0 [] [] []⟩

/-- C8: when A and B each declare a distance to the other and the
reciprocal scans return those distances, the loop body classifies the
pair identically from both perspectives, with equal discrepancies
(`|x - y| = |y - x|`). -/
theorem C8_discrepancy_symmetric {fold : String → String} {fs : DistCheck.FS}
    {nA nB : String} {eA eB : DistCheck.JsonEntry} {x y : Rat}
    {fnB fnA : String} {recA recB : DistCheck.RawRecord}
    (hA1 : eA.name = some nB) (hA2 : eA.distance_km = some x)
    (hAfn : DistCheck.normalize_name_to_filename fold fs.pathExists nB = fnB)
    (hAfs : fs fnB = some (.record recB))
    (hArec : DistCheck.findReciprocal nA (recB.destinations.getD []) = .ok (some y))
    (hB1 : eB.name = some nA) (hB2 : eB.distance_km = some y)
    (hBfn : DistCheck.normalize_name_to_filename fold fs.pathExists nA = fnA)
    (hBfs : fs fnA = some (.record recA))
    (hBrec : DistCheck.findReciprocal nB (recA.destinations.getD []) = .ok (some x)) :
    (Test.processEntry fold fs nA eA = .consistent ∧
     Test.processEntry fold fs nB eB = .consistent) ∨
    (∃ mA mB, Test.processEntry fold fs nA eA = .mismatch mA ∧
      Test.processEntry fold fs nB eB = .mismatch mB ∧
      mA.discrepancy = mB.discrepancy) := by
  have hpA := Test.processEntry_found hA1 hA2 hAfn hAfs hArec
  have hpB := Test.processEntry_found hB1 hB2 hBfn hBfs hBrec
  have habs : |y - x| = |x - y| := abs_sub_comm y x
  by_cases h : |x - y| > 0.01
  · right
    refine ⟨⟨nA, nB, x, y, |x - y|⟩, ⟨nB, nA, y, x, |y - x|⟩, ?_, ?_, ?_⟩
    · rw [hpA, if_pos h]
    · rw [hpB, if_pos (by rw [habs]; exact h)]
    · simpa using habs.symm
  · left
    constructor
    · rw [hpA, if_neg h]
    · rw [hpB, if_neg (by rw [habs]; exact h)]

/-- C8 witness: A→B 10 km, B→A 25 km; both perspectives report the same
15 km discrepancy. -/
theorem C8_discrepancy_symmetric_witness :
    (Test.processEntry id DistCheck.fsPair "A" ⟨some "B", some 10⟩ = .consistent ∧
     Test.processEntry id DistCheck.fsPair "B" ⟨some "A", some 25⟩ = .consistent) ∨
    (∃ mA mB, Test.processEntry id DistCheck.fsPair "A" ⟨some "B", some 10⟩ = .mismatch mA ∧
      Test.processEntry id DistCheck.fsPair "B" ⟨some "A", some 25⟩ = .mismatch mB ∧
      mA.discrepancy = mB.discrepancy) :=
  @C8_discrepancy_symmetric id DistCheck.fsPair
    "A" "B" ⟨some "B", some 10⟩ ⟨some "A", some 25⟩
    10 25 "B.json" "A.json"
    ⟨some "A", some [⟨some "B", some 10⟩]⟩
    ⟨some "B", some [⟨some "A", some 25⟩]⟩
    rfl rfl rfl rfl rfl rfl rfl rfl rfl rfl

/-- C9: a primary record whose `origin` is absent or the empty string,
or whose `destinations` list is absent or empty, fails the falsy check
of line 62 and aborts with the fatal missing-key message before any
pairwise work. -/
theorem C9_falsy_primary_fields_fatal {fold : String → String}
    {fs : DistCheck.FS} {primary : String} {r : DistCheck.RawRecord}
    (hfs : fs primary = some (.record r))
    (h : r.origin = none ∨ r.origin = some "" ∨ r.destinations.getD [] = []) :
    Test.check_distances fold fs primary = .fatal .missingKey := by
  unfold Test.check_distances
  rw [hfs]
  dsimp only
  rcases h with h | h | h
  · rw [h]
  · rw [h]
    dsimp only
    rw [if_pos (Or.inl rfl)]
  · cases ho : r.origin with
    | none => rfl
    | some o =>
      dsimp only
      rw [if_pos (Or.inr h)]

/-- C9 witness: an `origin` equal to the empty string is fatal exactly
like a missing key. -/
theorem C9_falsy_primary_fields_fatal_witness :
    Test.check_distances id DistCheck.fsEmptyOrigin "P.json" = .fatal .missingKey :=
  @C9_falsy_primary_fields_fatal id DistCheck.fsEmptyOrigin
    "P.json" ⟨some "", some [⟨some "B", some 1⟩]⟩
    rfl (Or.inr (Or.inl rfl))

namespace Test

open DistCheck

/-- If some entry of the remaining primary destinations is missing its
`name` or `distance_km` key, the loop inevitably dies with the uncaught
`KeyError` (every earlier entry either continues or dies the same way). -/
theorem runLoop_keyError_of_missing_key {fold : String → String} {fs : FS}
    {main_origin : String} :
    ∀ (l : List JsonEntry) cc ms errs,
      (∃ e ∈ l, e.name = none ∨ e.distance_km = none) →
      runLoop fold fs main_origin l cc ms errs = .keyError := by
  intro l
  induction l with
  | nil =>
    rintro cc ms errs ⟨e, he, _⟩
    simp at he
  | cons a rest ih =>
    rintro cc ms errs ⟨e, he, hbad⟩
    rcases List.mem_cons.mp he with rfl | hmem
    · have hstep : processEntry fold fs main_origin e = .keyErr := by
        rcases hbad with hb | hb
        · unfold processEntry
          rw [hb]
        · unfold processEntry
          cases hn : e.name with
          | none => rfl
          | some dn =>
            dsimp only
            rw [hb]
      simp [runLoop, hstep]
    · cases hstep : processEntry fold fs main_origin a <;>
        simp [runLoop, hstep] <;>
        exact ih _ _ _ ⟨e, hmem, hbad⟩

end Test

/-- C10: a primary destination entry missing `name` or `distance_km`
aborts the whole run with an uncaught KeyError — no fatal message and
no error row — whereas the same defect inside a destination file's
entries is caught and recorded as a `[File Error]` row. -/
theorem C10_primary_entry_keyerror_uncaught {fold : String → String}
    {fs : DistCheck.FS} {primary : String} {r : DistCheck.RawRecord}
    {o : String} {e : DistCheck.JsonEntry}
    (hfs : fs primary = some (.record r)) (ho : r.origin = some o)
    (honz : o ≠ "") (he : e ∈ r.destinations.getD [])
    (hbad : e.name = none ∨ e.distance_km = none) :
    Test.check_distances fold fs primary = .keyError ∧
    (∀ (e2 : DistCheck.JsonEntry) (dn2 : String) (x2 : Rat) (fn2 : String)
       (d2 : DistCheck.RawRecord),
      e2.name = some dn2 → e2.distance_km = some x2 →
      DistCheck.normalize_name_to_filename fold fs.pathExists dn2 = fn2 →
      fs fn2 = some (.record d2) →
      DistCheck.findReciprocal o (d2.destinations.getD []) = .error () →
      Test.processEntry fold fs o e2 = .err (.fileError fn2)) := by
  constructor
  · unfold Test.check_distances
    rw [hfs]
    dsimp only
    rw [ho]
    dsimp only
    rw [if_neg (fun hor => hor.elim honz (fun hnil => by rw [hnil] at he; simp at he))]
    exact Test.runLoop_keyError_of_missing_key _ _ _ _ ⟨e, he, hbad⟩
  · intro e2 dn2 x2 fn2 d2 h1 h2 hfn hfs2 hrec
    exact Test.processEntry_scanKeyError h1 h2 hfn hfs2 hrec

/-- C10 witness: the primary's only destination entry has no `name`
key, and the run ends as an uncaught KeyError. -/
theorem C10_primary_entry_keyerror_uncaught_witness :
    Test.check_distances id DistCheck.fsNamelessDest "P.json" = .keyError :=
  (@C10_primary_entry_keyerror_uncaught id
    DistCheck.fsNamelessDest "P.json"
    ⟨some "P", some [⟨none, some 3⟩]⟩ "P" ⟨none, some 3⟩
    rfl rfl (by decide) (by simp) (Or.inl rfl)).1

namespace Test

open DistCheck

/-- Membership in an insertion step. -/
theorem insertDesc_mem {x : Mismatch} {l : List Mismatch} {a : Mismatch} :
    a ∈ insertDesc x l ↔ a = x ∨ a ∈ l := by
  induction l with
  | nil => simp [insertDesc]
  | cons y ys ih =>
    unfold insertDesc
    split
    · simp [or_comm, or_left_comm]
    · simp [ih, or_comm, or_left_comm]

/-- Inserting keeps the list sorted by descending discrepancy. -/
theorem insertDesc_pairwise {x : Mismatch} {l : List Mismatch}
    (hl : List.Pairwise (fun a b => b.discrepancy ≤ a.discrepancy) l) :
    List.Pairwise (fun a b => b.discrepancy ≤ a.discrepancy) (insertDesc x l) := by
  induction l with
  | nil => simp [insertDesc]
  | cons y ys ih =>
    rcases List.pairwise_cons.mp hl with ⟨hy, hys⟩
    unfold insertDesc
    split
    case isTrue h =>
      refine List.pairwise_cons.mpr ⟨?_, hl⟩
      intro b hb
      rcases List.mem_cons.mp hb with rfl | hb2
      · exact h
      · exact le_trans (hy b hb2) h
    case isFalse h =>
      refine List.pairwise_cons.mpr ⟨?_, ih hys⟩
      intro b hb
      rcases insertDesc_mem.mp hb with rfl | hb2
      · exact le_of_lt (lt_of_not_ge h)
      · exact hy b hb2

/-- The reported order is sorted by descending discrepancy. -/
theorem sortDesc_pairwise (l : List Mismatch) :
    List.Pairwise (fun a b => b.discrepancy ≤ a.discrepancy) (sortDesc l) := by
  induction l with
  | nil => simp [sortDesc]
  | cons x xs ih => exact insertDesc_pairwise ih

/-- Inserting an element does not disturb the relative order of the
elements sharing any fixed discrepancy value. -/
theorem insertDesc_filter (x : Mismatch) (l : List Mismatch) (d : Rat) :
    (insertDesc x l).filter (fun m => decide (m.discrepancy = d)) =
      if x.discrepancy = d then
        x :: l.filter (fun m => decide (m.discrepancy = d))
      else l.filter (fun m => decide (m.discrepancy = d)) := by
  induction l with
  | nil =>
    by_cases hx : x.discrepancy = d <;> simp [insertDesc, List.filter, hx]
  | cons y ys ih =>
    unfold insertDesc
    split
    case isTrue h =>
      by_cases hx : x.discrepancy = d <;> simp [List.filter_cons, hx]
    case isFalse h =>
      by_cases hx : x.discrepancy = d
      · have hy : ¬ y.discrepancy = d :=
          fun hyd => h (le_of_eq (hyd.trans hx.symm))
        simp [List.filter_cons, hx, hy, ih]
      · simp [List.filter_cons, hx, ih]

/-- Python's stable sort: for each discrepancy value, the reported
sub-sequence equals the discovery-order sub-sequence. -/
theorem sortDesc_filter (l : List Mismatch) (d : Rat) :
    (sortDesc l).filter (fun m => decide (m.discrepancy = d)) =
      l.filter (fun m => decide (m.discrepancy = d)) := by
  induction l with
  | nil => rfl
  | cons x xs ih =>
    unfold sortDesc
    rw [insertDesc_filter]
    by_cases hx : x.discrepancy = d <;> simp [List.filter_cons, hx, ih]

end Test

/-- C4 counterexample: the primary lists `Z` before `A`; both mismatch
with the same 10 km discrepancy, and the reported list keeps `Z` first
— so equal-discrepancy mismatches are NOT in ascending destination
order (the sort of Test.py line 114 is stable with no secondary key). -/
theorem C4_tie_order_counterexample :
    Test.check_distances id DistCheck.fsTie "P.json" =
      .done ⟨0, [⟨"P", "Z", 10, 20, 10⟩, ⟨"P", "A", 30, 20, 10⟩], []⟩ ∧
    Test.reportedMismatches ⟨0, [⟨"P", "Z", 10, 20, 10⟩, ⟨"P", "A", 30, 20, 10⟩], []⟩ =
      [⟨"P", "Z", 10, 20, 10⟩, ⟨"P", "A", 30, 20, 10⟩] ∧
    ¬ List.Pairwise
        (fun a b : DistCheck.Mismatch =>
          a.discrepancy = b.discrepancy → a.destination ≤ b.destination)
        [⟨"P", "Z", 10, 20, 10⟩, ⟨"P", "A", 30, 20, 10⟩] := by
  refine ⟨?_, ?_, ?_⟩
  · have hZ : Test.processEntry id DistCheck.fsTie "P" ⟨some "Z", some 10⟩ =
        .mismatch ⟨"P", "Z", 10, 20, 10⟩ := by
      rw [@Test.processEntry_found id DistCheck.fsTie
        "P" ⟨some "Z", some 10⟩ "Z" 10
        "Z.json" ⟨some "Z", some [⟨some "P", some 20⟩]⟩ 20
        rfl rfl rfl rfl rfl,
        show |(10 : Rat) - 20| = 10 by norm_num, if_pos (by norm_num)]
    have hA : Test.processEntry id DistCheck.fsTie "P" ⟨some "A", some 30⟩ =
        .mismatch ⟨"P", "A", 30, 20, 10⟩ := by
      rw [@Test.processEntry_found id DistCheck.fsTie
        "P" ⟨some "A", some 30⟩ "A" 30
        "A.json" ⟨some "A", some [⟨some "P", some 20⟩]⟩ 20
        rfl rfl rfl rfl rfl,
        show |(30 : Rat) - 20| = 10 by norm_num, if_pos (by norm_num)]
    unfold Test.check_distances
    rw [show DistCheck.fsTie "P.json" = some (.record ⟨some "P",
      some [⟨some "Z", some 10⟩, ⟨some "A", some 30⟩]⟩) from rfl]
    dsimp only
    rw [if_neg (by simp)]
    simp [Test.runLoop, hZ, hA]
  · show Test.sortDesc _ = _
    simp [Test.sortDesc, Test.insertDesc]
  · intro hpair
    have hle := (List.pairwise_cons.mp hpair).1 ⟨"P", "A", 30, 20, 10⟩ (by simp) rfl
    dsimp only at hle
    rw [String.le_iff_toList_le] at hle
    exact absurd hle (by decide)

/-- C4 amended: the reported mismatch list is sorted by discrepancy
descending, and mismatches with equal discrepancy keep the order in
which the primary record's destination entries produced them (Python's
sort is stable; there is no destination-name tie-break). -/
theorem C4_stable_descending_order {fold : String → String}
    {fs : DistCheck.FS} {primary : String} {r : Test.RunResult}
    (_h : Test.check_distances fold fs primary = .done r) :
    List.Pairwise (fun a b : DistCheck.Mismatch => b.discrepancy ≤ a.discrepancy)
      (Test.reportedMismatches r) ∧
    ∀ d : Rat,
      (Test.reportedMismatches r).filter (fun m => decide (m.discrepancy = d)) =
        r.mismatches.filter (fun m => decide (m.discrepancy = d)) :=
  ⟨Test.sortDesc_pairwise r.mismatches, fun d => Test.sortDesc_filter r.mismatches d⟩

/-- C4 amended witness: a completed run (its sole destination's file is
missing, so the mismatch list is empty) instantiates the ordering and
stability statement. -/
theorem C4_stable_descending_order_witness :
    List.Pairwise (fun a b : DistCheck.Mismatch => b.discrepancy ≤ a.discrepancy)
      (Test.reportedMismatches ⟨0, [], [.fileNotFound "B.json" "B"]⟩) ∧
    (Test.reportedMismatches ⟨0, [], [.fileNotFound "B.json" "B"]⟩).filter
        (fun m => decide (m.discrepancy = 10)) =
      (Test.RunResult.mismatches ⟨0, [], [.fileNotFound "B.json" "B"]⟩).filter
        (fun m => decide (m.discrepancy = 10)) := by
  have h := @C4_stable_descending_order id DistCheck.fsLoneDest
    "P.json" ⟨0, [], [.fileNotFound "B.json" "B"]⟩ rfl
  exact ⟨h.1, h.2 10⟩

/-- C5 counterexample: a missing primary file only prints the FATAL
ERROR message and returns, so the interpreter still exits 0; and a run
whose primary loads and parses fine can still exit nonzero, via the
uncaught KeyError of a malformed primary destination entry. -/
theorem C5_exit_code_counterexample :
    Test.check_distances id (fun _ => none) "P.json" = .fatal .fileNotFound ∧
    Test.exitCode (Test.check_distances id (fun _ => none) "P.json") = 0 ∧
    DistCheck.fsBadEntry "P.json" =
      some (.record ⟨some "P", some [⟨none, none⟩]⟩) ∧
    Test.check_distances id DistCheck.fsBadEntry "P.json" = .keyError ∧
    Test.exitCode (Test.check_distances id DistCheck.fsBadEntry "P.json") = 1 :=
  ⟨rfl, rfl, rfl, rfl, rfl⟩

/-- C5 amended: the exit code is 0 whenever check_distances returns —
fatal load/parse failures included, since they print a message and
return — and nonzero (1) exactly when the uncaught KeyError escapes. -/
theorem C5_exit_zero_unless_uncaught (fold : String → String)
    (fs : DistCheck.FS) (primary : String) :
    (fs primary = none →
      Test.check_distances fold fs primary = .fatal .fileNotFound) ∧
    (fs primary = some .invalid →
      Test.check_distances fold fs primary = .fatal .jsonDecodeError) ∧
    (∀ k, Test.check_distances fold fs primary = .fatal k →
      Test.exitCode (Test.check_distances fold fs primary) = 0) ∧
    (∀ r, Test.check_distances fold fs primary = .done r →
      Test.exitCode (Test.check_distances fold fs primary) = 0) ∧
    (Test.check_distances fold fs primary = .keyError →
      Test.exitCode (Test.check_distances fold fs primary) = 1) := by
  refine ⟨fun h => ?_, fun h => ?_, fun k h => ?_, fun r h => ?_, fun h => ?_⟩
  · unfold Test.check_distances
    rw [h]
  · unfold Test.check_distances
    rw [h]
  · rw [h]
    rfl
  · rw [h]
    rfl
  · rw [h]
    rfl

/-- C5 amended witness: on an empty directory the run is fatal and the
process still exits 0. -/
theorem C5_exit_zero_unless_uncaught_witness :
    Test.check_distances id (fun _ => none) "X.json" = .fatal .fileNotFound ∧
    Test.exitCode (Test.check_distances id (fun _ => none) "X.json") = 0 := by
  have h := C5_exit_zero_unless_uncaught id (fun _ => none) "X.json"
  exact ⟨h.1 rfl, h.2.2.1 .fileNotFound (h.1 rfl)⟩

/-- C6 counterexample: `B.json` parses but has no `origin` key — the
pair is counted consistent, producing no error row at all — and
`C.json` parses but has no `destinations` key, which is reported as
`[Missing Return]`, not as the `[File Error]` (RecordInvalid)
classification the claim requires. -/
theorem C6_missing_fields_counterexample :
    Test.check_distances id DistCheck.fsShapes "P.json" =
      .done ⟨1, [], [.missingReturn "P" "C.json"]⟩ ∧
    (DistCheck.RunError.missingReturn "P" "C.json").isFileError = false := by
  refine ⟨?_, rfl⟩
  have hB : Test.processEntry id DistCheck.fsShapes "P" ⟨some "B", some 10⟩ =
      .consistent := by
    rw [@Test.processEntry_found id DistCheck.fsShapes
      "P" ⟨some "B", some 10⟩ "B" 10
      "B.json" ⟨none, some [⟨some "P", some 10⟩]⟩ 10
      rfl rfl rfl rfl rfl,
      if_neg (by norm_num)]
  have hC : Test.processEntry id DistCheck.fsShapes "P" ⟨some "C", some 5⟩ =
      .err (.missingReturn "P" "C.json") := rfl
  unfold Test.check_distances
  rw [show DistCheck.fsShapes "P.json" = some (.record ⟨some "P",
    some [⟨some "B", some 10⟩, ⟨some "C", some 5⟩]⟩) from rfl]
  dsimp only
  rw [if_neg (by simp)]
  simp [Test.runLoop, hB, hC]

/-- C6 amended: a destination record whose `destinations` key is absent
is scanned as an empty list and reported as MissingReturn (its `origin`
key is never consulted); the `[File Error]` (RecordInvalid)
classification arises exactly from the caught KeyError of the
reciprocal scan — an entry missing `name`, or a matching entry missing
`distance_km`. -/
theorem C6_malformed_record_classification {fold : String → String}
    {fs : DistCheck.FS} {main_origin : String} {e : DistCheck.JsonEntry}
    {dn : String} {x : Rat} {fn : String} {d : DistCheck.RawRecord}
    (h1 : e.name = some dn) (h2 : e.distance_km = some x)
    (hfn : DistCheck.normalize_name_to_filename fold fs.pathExists dn = fn)
    (hfs : fs fn = some (.record d)) :
    (d.destinations = none →
      Test.processEntry fold fs main_origin e =
        .err (.missingReturn main_origin fn)) ∧
    (DistCheck.findReciprocal main_origin (d.destinations.getD []) = .error () →
      Test.processEntry fold fs main_origin e = .err (.fileError fn)) ∧
    (∀ (dk : Option Rat) (rest : List DistCheck.JsonEntry),
      DistCheck.findReciprocal main_origin (⟨none, dk⟩ :: rest) = .error ()) ∧
    (∀ rest : List DistCheck.JsonEntry,
      DistCheck.findReciprocal main_origin
        (⟨some main_origin, none⟩ :: rest) = .error ()) := by
  refine ⟨fun hd => ?_, fun hrec => ?_, fun dk rest => rfl, fun rest => ?_⟩
  · refine Test.processEntry_missingReturn h1 h2 hfn hfs ?_
    rw [hd]
    rfl
  · exact Test.processEntry_scanKeyError h1 h2 hfn hfs hrec
  · unfold DistCheck.findReciprocal
    dsimp only
    rw [if_pos rfl]

/-- C6 amended witness: a destination record with no `destinations` key
produces a MissingReturn row, and an entry with no `name` key raises
the caught KeyError. -/
theorem C6_malformed_record_classification_witness :
    Test.processEntry id DistCheck.fsNoDests "P" ⟨some "B", some 3⟩ =
      .err (.missingReturn "P" "B.json") ∧
    DistCheck.findReciprocal "P" [⟨none, none⟩] = .error () := by
  have h := @C6_malformed_record_classification id
    DistCheck.fsNoDests "P" ⟨some "B", some 3⟩
    "B" 3 "B.json" ⟨some "B", none⟩
    rfl rfl rfl rfl
  exact ⟨h.1 rfl, h.2.2.1 none []⟩
